import Mathlib

/-!
Verification development for the geoconverter native core
(src/native/native.cpp).  The C++ functions are shallowly embedded as
executable Lean definitions; the external GDAL engine is modelled as an
abstract oracle (structures of function fields) so that the policy and
control-flow logic of the core — format registry, CRS policy, driver
option synthesis, the shapefile geometry-family splitter, the
boundary-sampling extent estimator, the preview JSON assembly and the
diagnostic channel — can be stated and proved about.
-/

namespace GeoConverter

/-! ## String helpers (models of the C++ helpers in native.cpp) -/

/-- Model of `toLower` (native.cpp:30-33): ASCII lower-casing of every
character, as `std::tolower` does in the default locale. -/
def toLower (s : String) : String := String.mk (s.data.map Char.toLower)

/-- Membership of `pat` as a contiguous substring of `s`, the model of
`std::string::find(pat) != npos`. -/
def hasSubstrList (pat : List Char) : List Char → Bool
  | [] => pat.isEmpty
  | c :: rest => pat.isPrefixOf (c :: rest) || hasSubstrList pat rest

/-- String version of `hasSubstrList`. -/
def strContains (s pat : String) : Bool := hasSubstrList pat.data s.data

/-- Model of `std::string::substr(n)`: drop the first `n` characters. -/
def strDrop (s : String) (n : Nat) : String := String.mk (s.data.drop n)

/-- Model of truncation `substr(0, n)`: take the first `n` characters. -/
def strTake (s : String) (n : Nat) : String := String.mk (s.data.take n)

/-- Whether `p` is a leading piece of `s`, the model of
`s.find(p) == 0` on C++ strings. -/
def strStarts (s p : String) : Bool := p.data.isPrefixOf s.data

def isDigitChar (c : Char) : Bool := '0' ≤ c && c ≤ '9'

def digitsToNat : List Char → Nat → Nat
  | [], acc => acc
  | c :: cs, acc => digitsToNat cs (acc * 10 + (c.toNat - 48))

/-- Model of `std::stoi`: skip leading spaces, optional sign, then one or
more digits; `none` models the `std::invalid_argument` exception when no
digit is found. -/
def stoi? (s : String) : Option Int :=
  let cs := s.data.dropWhile (fun c => c = ' ' || c = '\t')
  let (neg, cs) := match cs with
    | '-' :: rest => (true, rest)
    | '+' :: rest => (false, rest)
    | rest => (false, rest)
  let digits := cs.takeWhile isDigitChar
  if digits.isEmpty then none
  else
    let n : Int := Int.ofNat (digitsToNat digits 0)
    some (if neg then -n else n)

/-! ## escapeJsonString (native.cpp:36-63)

The C++ loops over bytes; this model works per character, which agrees
with the source on the ASCII range exercised throughout this
development. -/

def hexDigitChar (n : Nat) : Char :=
  if n < 10 then Char.ofNat (48 + n) else Char.ofNat (87 + n)

/-- Four lowercase hex digits, the `%04x` rendering used for control
characters. -/
def hex4 (n : Nat) : String :=
  String.mk [hexDigitChar (n / 4096 % 16), hexDigitChar (n / 256 % 16),
             hexDigitChar (n / 16 % 16), hexDigitChar (n % 16)]

def escapeJsonChar (c : Char) : String :=
  if c = '"' then "\\\""
  else if c = '\\' then "\\\\"
  else if c = '\x08' then "\\b"
  else if c = '\x0c' then "\\f"
  else if c = '\n' then "\\n"
  else if c = '\r' then "\\r"
  else if c = '\t' then "\\t"
  else if c.toNat < 0x20 then "\\u" ++ hex4 c.toNat
  else String.singleton c

/-- Model of `escapeJsonString` (native.cpp:36-63). -/
def escapeJsonString (s : String) : String :=
  String.join (s.data.map escapeJsonChar)

/-! ## Format registry (native.cpp:98-168) -/

/-- Model of `getDriverNameFromFormat` (native.cpp:98-132). -/
def getDriverNameFromFormat (format : String) : String :=
  let f := toLower format
  if f = "geojson" then "GeoJSON"
  else if f = "topojson" then "TopoJSON"
  else if f = "shapefile" then "ESRI Shapefile"
  else if f = "geopackage" then "GPKG"
  else if f = "kml" then "KML"
  else if f = "gpx" then "GPX"
  else if f = "gml" then "GML"
  else if f = "flatgeobuf" then "FlatGeobuf"
  else if f = "csv" then "CSV"
  else if f = "pmtiles" then "PMTiles"
  else if f = "mbtiles" then "MBTiles"
  else if f = "dxf" then "DXF"
  else if f = "dgn" then "DGN"
  else if f = "geojsonseq" then "GeoJSONSeq"
  else if f = "georss" then "GeoRSS"
  else if f = "geoconcept" then "Geoconcept"
  else if f = "jml" then "JML"
  else if f = "jsonfg" then "JSONFG"
  else if f = "mapml" then "MapML"
  else if f = "ods" then "ODS"
  else if f = "ogr_gmt" then "OGR_GMT"
  else if f = "pcidsk" then "PCIDSK"
  else if f = "pds4" then "PDS4"
  else if f = "s57" then "S57"
  else if f = "sqlite" then "SQLite"
  else if f = "selafin" then "Selafin"
  else if f = "vdv" then "VDV"
  else if f = "vicar" then "VICAR"
  else if f = "wasp" then "WAsP"
  else if f = "xlsx" then "XLSX"
  else if f = "pgdump" then "PGDump"
  else "GeoJSON"

/-- Model of `getExtensionFromFormat` (native.cpp:134-168). -/
def getExtensionFromFormat (format : String) : String :=
  let f := toLower format
  if f = "geojson" then ".geojson"
  else if f = "topojson" then ".topojson"
  else if f = "shapefile" then ".zip"
  else if f = "geopackage" then ".gpkg"
  else if f = "kml" then ".kml"
  else if f = "gpx" then ".gpx"
  else if f = "gml" then ".gml"
  else if f = "flatgeobuf" then ".fgb"
  else if f = "csv" then ".csv"
  else if f = "pmtiles" then ".pmtiles"
  else if f = "mbtiles" then ".mbtiles"
  else if f = "dxf" then ".dxf"
  else if f = "dgn" then ".dgn"
  else if f = "geojsonseq" then ".geojsonseq"
  else if f = "georss" then ".georss"
  else if f = "geoconcept" then ".gxt"
  else if f = "jml" then ".jml"
  else if f = "jsonfg" then ".jsonfg"
  else if f = "mapml" then ".mapml"
  else if f = "ods" then ".ods"
  else if f = "ogr_gmt" then ".gmt"
  else if f = "pcidsk" then ".pix"
  else if f = "pds4" then ".pds4.xml"
  else if f = "s57" then ".000"
  else if f = "sqlite" then ".sqlite"
  else if f = "selafin" then ".slf"
  else if f = "vdv" then ".vdv"
  else if f = "vicar" then ".vic"
  else if f = "wasp" then ".map"
  else if f = "xlsx" then ".xlsx"
  else if f = "pgdump" then ".sql"
  else ".geojson"

/-! ## Diagnostic channel (native.cpp:65-96 and 170-177) -/

/-- Severity classes of the GDAL message callback (`CPLErr`). -/
inductive CplSev
  | warning
  | failure
  | debug
  | fatal
deriving DecidableEq

/-- The two thread-local diagnostic strings `g_lastError` / `g_lastInfo`. -/
structure Diag where
  lastError : String
  lastInfo : String
deriving DecidableEq

/-- Model of `resetLastError` (native.cpp:68-72): both slots cleared. -/
def resetDiag : Diag := ⟨"", ""⟩

/-- Model of `recordErrorMessage` (native.cpp:74-78): a nonempty message
overwrites the previous one unconditionally. -/
def recordErrorMessage (d : Diag) (msg : String) : Diag :=
  if msg = "" then d else { d with lastError := msg }

/-- Model of `recordInfoMessage` (native.cpp:80-84). -/
def recordInfoMessage (d : Diag) (msg : String) : Diag :=
  if msg = "" then d else { d with lastInfo := msg }

/-- Model of `ErrHandler` (native.cpp:171-177): failures/fatals go to the
error slot, warnings/debug messages to the info slot. -/
def errHandler (d : Diag) (sev : CplSev) (msg : String) : Diag :=
  match sev with
  | .failure => recordErrorMessage d msg
  | .fatal => recordErrorMessage d msg
  | .warning => recordInfoMessage d msg
  | .debug => recordInfoMessage d msg

/-- Fold the handler over the messages emitted during one public
operation, starting from the reset state. -/
def runHandler (msgs : List (CplSev × String)) : Diag :=
  msgs.foldl (fun d m => errHandler d m.1 m.2) resetDiag

/-- Model of `ensureLastErrorMessage` (native.cpp:86-96); `cplMsg` stands
for the engine's own `CPLGetLastErrorMsg()` buffer. -/
def ensureLastErrorMessage (d : Diag) (cplMsg : String) : Diag :=
  if d.lastError ≠ "" then d
  else if cplMsg ≠ "" then { d with lastError := cplMsg }
  else if d.lastInfo ≠ "" then { d with lastError := d.lastInfo }
  else d

/-- The message `getLastError()` reports after one operation that emitted
`msgs` through the handler, with `cplMsg` the engine buffer consulted by
`ensureLastErrorMessage`. -/
def channelResult (msgs : List (CplSev × String)) (cplMsg : String) : String :=
  (ensureLastErrorMessage (runHandler msgs) cplMsg).lastError

def isFailClass : CplSev → Bool
  | .failure => true
  | .fatal => true
  | _ => false

def isInfoClass : CplSev → Bool
  | .warning => true
  | .debug => true
  | _ => false

/-- Texts of the nonempty Failure-class messages, in emission order. -/
def failTexts (msgs : List (CplSev × String)) : List String :=
  (msgs.filter (fun m => isFailClass m.1 && !(m.2 == ""))).map Prod.snd

/-- Texts of the nonempty Warning/Debug-class messages, in emission order. -/
def infoTexts (msgs : List (CplSev × String)) : List String :=
  (msgs.filter (fun m => isInfoClass m.1 && !(m.2 == ""))).map Prod.snd

/-! ## CRS policy resolver (native.cpp:225-263) -/

/-- Model of `pushCrsArgs` (native.cpp:225-263).  `hasEmbeddedCrs` models
"the dataset has at least one layer and layer 0's `GetSpatialRef()` is
non-null" (native.cpp:250-251); the function returns the directives the
C++ appends to `args`. -/
def pushCrsArgs (hasEmbeddedCrs : Bool) (sourceCrs targetCrs : String) :
    List String :=
  let haveSrc := sourceCrs ≠ ""
  let haveDst := targetCrs ≠ ""
  if haveSrc ∧ haveDst ∧ sourceCrs ≠ targetCrs then
    ["-s_srs", sourceCrs, "-t_srs", targetCrs]
  else if haveSrc ∧ ¬haveDst then
    ["-a_srs", sourceCrs]
  else if haveDst ∧ ¬haveSrc then
    if hasEmbeddedCrs then ["-t_srs", targetCrs] else ["-a_srs", targetCrs]
  else
    []

/-- The spec's `CrsDirective` tagged variant (spec §3 / §4.2). -/
inductive CrsDirective
  | noDirective
  | assignOnly (crs : String)
  | transformOnly (target : String)
  | assignThenTransform (source target : String)
deriving DecidableEq

/-- Modelled from the spec (§4.2): the generic directives each
`CrsDirective` stands for. -/
def crsDirectiveArgs : CrsDirective → List String
  | .noDirective => []
  | .assignOnly c => ["-a_srs", c]
  | .transformOnly t => ["-t_srs", t]
  | .assignThenTransform s t => ["-s_srs", s, "-t_srs", t]

/-- Modelled from the spec (§4.2): the resolver decision table, evaluated
in the spec's priority order, for requests where both-given implies the
two CRSes differ. -/
def resolveCrsSpec (src tgt : String) (embedded : Bool) : CrsDirective :=
  if src ≠ "" ∧ tgt ≠ "" then .assignThenTransform src tgt
  else if src ≠ "" then .assignOnly src
  else if tgt ≠ "" then
    if embedded then .transformOnly tgt else .assignOnly tgt
  else .noDirective

/-! ## Driver layer-creation options (native.cpp:265-281) -/

/-- Model of `pushDriverLCO` (native.cpp:265-281). -/
def pushDriverLCO (driver : String) (geojsonPrecision : Int)
    (csvGeometryMode : String) : List String :=
  if driver = "ESRI Shapefile" then
    ["-lco", "ENCODING=UTF-8"]
  else if driver = "GeoJSON" ∨ driver = "TopoJSON" then
    ["-lco", "WRITE_BBOX=YES",
     "-lco", "COORDINATE_PRECISION=" ++ toString geojsonPrecision]
  else if driver = "GPKG" then
    ["-lco", "SPATIAL_INDEX=YES"]
  else if driver = "CSV" then
    if csvGeometryMode = "XY" then ["-lco", "GEOMETRY=AS_XY"]
    else ["-lco", "GEOMETRY=AS_WKT"]
  else []

/-! ## Geometry families (native.cpp:283-297) -/

inductive GeomFamily
  | point
  | multipoint
  | lines
  | polygons
deriving DecidableEq

def allFamilies : List GeomFamily :=
  [.point, .multipoint, .lines, .polygons]

/-- The per-family SQL predicates `WHERE_*` (native.cpp:284-287). -/
def familyWhere : GeomFamily → String
  | .point => "OGR_GEOMETRY='POINT'"
  | .multipoint => "OGR_GEOMETRY='MULTIPOINT'"
  | .lines => "OGR_GEOMETRY='LINESTRING' OR OGR_GEOMETRY='MULTILINESTRING'"
  | .polygons => "OGR_GEOMETRY='POLYGON' OR OGR_GEOMETRY='MULTIPOLYGON'"

/-- The per-family output-name suffixes (native.cpp:781-786). -/
def familySuffix : GeomFamily → String
  | .point => "_point"
  | .multipoint => "_multipoint"
  | .lines => "_lines"
  | .polygons => "_polygons"

/-- The `promoteToMulti` flag of the `parts` table (native.cpp:781-786). -/
def familyPromote : GeomFamily → Bool
  | .point => false
  | .multipoint => false
  | .lines => true
  | .polygons => true

/-- Model of `whereFromFilter` (native.cpp:290-297). -/
def whereFromFilter (filter : String) : String :=
  let f := toLower filter
  if f = "point" ∨ f = "points" then familyWhere .point
  else if f = "multipoint" ∨ f = "multi-point" then familyWhere .multipoint
  else if f = "line" ∨ f = "lines" ∨ f = "linestring" then familyWhere .lines
  else if f = "polygon" ∨ f = "polygons" then familyWhere .polygons
  else ""

/-! ## Extent reprojection estimator (native.cpp:299-394)

Coordinates are modelled as rationals; the claims about this component
concern the sampling structure, the min/max composition and the failure
fallbacks, none of which depend on floating-point rounding. -/

structure Extent where
  minX : ℚ
  minY : ℚ
  maxX : ℚ
  maxY : ℚ
deriving DecidableEq

/-- The axis-mapping strategy applied to a spatial reference;
`traditionalGisOrder` models `OAMS_TRADITIONAL_GIS_ORDER`. -/
inductive AxisStrategy
  | traditionalGisOrder
  | authorityCompliant
deriving DecidableEq

/-- The data with which `transformExtentToWgs84` asks the engine for a
coordinate transformation (native.cpp:325-365): the parsed user label as
source, well-known WGS84 as destination, and the axis strategy the code
sets on each end. -/
structure TransformRequest where
  srcLabel : String
  srcAxis : AxisStrategy
  dstWellKnown : String
  dstAxis : AxisStrategy
deriving DecidableEq

/-- Abstract spatial-reference engine consumed by the estimator:
`parseErr` is the `OGRErr` of `SetFromUserInput` (0 = `OGRERR_NONE`),
`isSameWgs84` the result of `srcSrs.IsSame(&wgs84)`, `createOk` whether
`OGRCreateCoordinateTransformation` returns a transform, and
`transformPoint` the per-point transform (`none` = failure). -/
structure SrsEngine where
  parseErr : String → Nat
  isSameWgs84 : String → Bool
  createOk : TransformRequest → Bool
  transformPoint : TransformRequest → ℚ × ℚ → Option (ℚ × ℚ)

/-- The lexical WGS84 test of native.cpp:315-320 on the lower-cased
label: equality with `epsg:4326`, `wgs84`, `wgs 84`, or containment of
the latter two. -/
def isWgs84Lexical (sourceCrs : String) : Bool :=
  let lowerCrs := toLower sourceCrs
  lowerCrs = "epsg:4326" ||
  lowerCrs = "wgs84" ||
  lowerCrs = "wgs 84" ||
  strContains lowerCrs "wgs84" ||
  strContains lowerCrs "wgs 84"

/-- One edge sampled at `steps + 1 = 9` evenly spaced points, endpoints
included, `t = i / 8` (native.cpp:347-355). -/
def edgeSamples (x0 y0 x1 y1 : ℚ) : List (ℚ × ℚ) :=
  (List.range 9).map (fun i =>
    (x0 + (x1 - x0) * ((i : ℚ) / 8), y0 + (y1 - y0) * ((i : ℚ) / 8)))

/-- The 36 boundary samples, edges in source order: bottom, right, top,
left (native.cpp:357-360). -/
def boundarySamples (e : Extent) : List (ℚ × ℚ) :=
  edgeSamples e.minX e.minY e.maxX e.minY ++
  edgeSamples e.maxX e.minY e.maxX e.maxY ++
  edgeSamples e.maxX e.maxY e.minX e.maxY ++
  edgeSamples e.minX e.maxY e.minX e.minY

/-- Transform every point in order, reporting the index of the first
point whose transform fails (native.cpp:372-381). -/
def transformAll (f : ℚ × ℚ → Option (ℚ × ℚ)) :
    List (ℚ × ℚ) → Nat → Except Nat (List (ℚ × ℚ))
  | [], _ => .ok []
  | p :: rest, i =>
    match f p with
    | none => .error i
    | some q =>
      match transformAll f rest (i + 1) with
      | .error j => .error j
      | .ok qs => .ok (q :: qs)

/-- Minimum of a list of rationals (`minmax_element`; the list is never
empty where this is used). -/
def minOf : List ℚ → ℚ
  | [] => 0
  | x :: xs => xs.foldl min x

/-- Maximum of a list of rationals. -/
def maxOf : List ℚ → ℚ
  | [] => 0
  | x :: xs => xs.foldl max x

/-- Model of `transformExtentToWgs84` (native.cpp:299-394).  Returns the
output box (the original extent whenever the function returns `false`,
because the caller initialises the out-parameters to the original box and
they are only overwritten on success), the `reprojected` flag, and the
accumulated debug trace. -/
def transformExtentToWgs84 (eng : SrsEngine) (extent : Extent)
    (sourceCrs : String) : Extent × Bool × String :=
  if sourceCrs = "" then
    (extent, false, "Source CRS is empty; ")
  else
    let d1 := "Using source CRS: " ++ sourceCrs ++ "; "
    if isWgs84Lexical sourceCrs then
      (extent, false, d1 ++ "Already WGS84 (detected from CRS string), skipping; ")
    else if eng.parseErr sourceCrs ≠ 0 then
      (extent, false,
        d1 ++ "SetFromUserInput failed (error " ++
          toString (eng.parseErr sourceCrs) ++ "); ")
    else if eng.isSameWgs84 sourceCrs then
      (extent, false, d1 ++ "Already WGS84, skipping; ")
    else
      let req : TransformRequest :=
        ⟨sourceCrs, .traditionalGisOrder, "WGS84", .traditionalGisOrder⟩
      let pts := boundarySamples extent
      if ¬eng.createOk req then
        (extent, false, d1 ++ "OGRCreateCoordinateTransformation failed; ")
      else
        match transformAll (eng.transformPoint req) pts 0 with
        | .error i =>
          (extent, false,
            d1 ++ "OGR transform failed at point " ++ toString i ++ "; ")
        | .ok tps =>
          (⟨minOf (tps.map Prod.fst), minOf (tps.map Prod.snd),
            maxOf (tps.map Prod.fst), maxOf (tps.map Prod.snd)⟩,
           true, d1 ++ "OGR reprojection successful; ")

/-! ## Conversion request (native.h:11-29) -/

/-- The parameters of `Native::convertVector`, minus the raw input bytes
(which only the abstract engine consumes).  `simplifyTolerance` is kept
as a rational. -/
structure ConvertRequest where
  inputFormat : String
  outputFormat : String
  sourceCrs : String
  targetCrs : String
  layerName : String
  geometryTypeFilter : String
  skipFailures : Bool
  makeValid : Bool
  keepZ : Bool
  whereClause : String
  selectFields : String
  simplifyTolerance : ℚ
  explodeCollections : Bool
  preserveFid : Bool
  geojsonPrecision : Int
  csvGeometryMode : String

/-! ## Geometry-family splitter (native.cpp:770-829) -/

/-- Abstract source dataset and translate oracle for the shapefile split
path: `layers` are the layer names in `GetLayer` order, `count` models
`countGeomWhere` for a layer name and WHERE predicate, and
`famTranslateOk` tells whether `runVectorTranslate` to a given output
path returns a dataset. -/
structure SplitEngine where
  layers : List String
  count : String → String → Int
  famTranslateOk : String → Bool

/-- The base name `<layerNameOrOverride><familySuffix>` of one family
output (native.cpp:792-793). -/
def shpBaseName (layerNameOverride srcLayerName : String)
    (fam : GeomFamily) : String :=
  (if layerNameOverride = "" then srcLayerName else layerNameOverride) ++
    familySuffix fam

/-- The per-family output path under `/vsimem/shp_output`
(native.cpp:771,794). -/
def shpOutPath (layerNameOverride srcLayerName : String)
    (fam : GeomFamily) : String :=
  "/vsimem/shp_output/" ++ shpBaseName layerNameOverride srcLayerName fam ++
    ".shp"

/-- The translate directive list built for one geometry family
(native.cpp:796-821). -/
def shpFamilyArgs (r : ConvertRequest) (hasEmbeddedCrs : Bool)
    (fam : GeomFamily) (baseName : String) : List String :=
  let args := ["-f", "ESRI Shapefile", "-where", familyWhere fam,
               "-nln", baseName, "-dim", if r.keepZ then "XYZ" else "XY"]
  let args := if r.explodeCollections then args ++ ["-explodecollections"] else args
  let args := if familyPromote fam then args ++ ["-nlt", "PROMOTE_TO_MULTI"] else args
  let args := if r.skipFailures then args ++ ["-skipfailures"] else args
  let args := if r.makeValid then args ++ ["-makevalid"] else args
  let args := if r.preserveFid then args ++ ["-preserve_fid"] else args
  let args := if 0 < r.simplifyTolerance then
      args ++ ["-simplify", toString r.simplifyTolerance] else args
  let args := args ++ pushDriverLCO "ESRI Shapefile" r.geojsonPrecision r.csvGeometryMode
  args ++ pushCrsArgs hasEmbeddedCrs r.sourceCrs r.targetCrs

/-- The family outputs produced for one source layer: a family is skipped
when its predicate count is not positive (native.cpp:789-790) and when
its translate fails (`continue`, native.cpp:823-826); otherwise the
output file path is recorded. -/
def splitLayer (eng : SplitEngine) (r : ConvertRequest)
    (lname : String) : List String :=
  allFamilies.foldl
    (fun acc fam =>
      if eng.count lname (familyWhere fam) ≤ 0 then acc
      else if eng.famTranslateOk (shpOutPath r.layerName lname fam) then
        acc ++ [shpOutPath r.layerName lname fam]
      else acc)
    []

/-- All per-family output files produced across the dataset's layers
(native.cpp:773-829). -/
def splitOutputs (eng : SplitEngine) (r : ConvertRequest) : List String :=
  eng.layers.foldl (fun acc lname => acc ++ splitLayer eng r lname) []

/-! ## Non-shapefile directive list (native.cpp:873-921) -/

/-- Model of the ordered directive list assembled for the non-shapefile
translate (native.cpp:877-921), with `hasEmbeddedCrs` abstracting the
dataset probe of `pushCrsArgs`. -/
def buildNonShpArgs (hasEmbeddedCrs : Bool) (r : ConvertRequest) :
    List String :=
  let driver := getDriverNameFromFormat r.outputFormat
  let args := ["-f", driver, "-dim", if r.keepZ then "XYZ" else "XY"]
  let args := if r.explodeCollections then args ++ ["-explodecollections"] else args
  let args := if r.skipFailures then args ++ ["-skipfailures"] else args
  let args := if r.makeValid then args ++ ["-makevalid"] else args
  let args := if r.preserveFid then args ++ ["-preserve_fid"] else args
  let args := if 0 < r.simplifyTolerance then
      args ++ ["-simplify", toString r.simplifyTolerance] else args
  let args := args ++ pushDriverLCO driver r.geojsonPrecision r.csvGeometryMode
  let args := args ++ pushCrsArgs hasEmbeddedCrs r.sourceCrs r.targetCrs
  let args := if r.layerName ≠ "" then args ++ ["-nln", r.layerName] else args
  let w := whereFromFilter r.geometryTypeFilter
  let args := if w ≠ "" then args ++ ["-where", w] else args
  let args := if r.whereClause ≠ "" then args ++ ["-where", r.whereClause] else args
  if r.selectFields ≠ "" then args ++ ["-select", r.selectFields] else args

/-! ## Preview / metadata extraction (native.cpp:397-702) -/

/-- Fixed-point rendering with six decimals, the model of
`std::to_string(double)` used for the bbox members (rounding to nearest
at the sixth decimal). -/
def pad6 (n : Nat) : String :=
  let s := toString n
  String.mk (List.replicate (6 - s.data.length) '0') ++ s

def fixed6 (q : ℚ) : String :=
  let neg := q < 0
  let a : ℚ := |q|
  let scaled : ℤ := ⌊a * 1000000 + 1 / 2⌋
  (if neg then "-" else "") ++ toString (scaled / 1000000) ++ "." ++
    pad6 (scaled % 1000000).toNat

/-- The `OGRFieldType` values distinguished by the first-feature preview
switch (native.cpp:636-662). -/
inductive FieldKind
  | integerField
  | integer64Field
  | realField
  | stringField
  | dateField
  | dateTimeField
  | otherField
deriving DecidableEq

/-- One field of the first feature: `isSet` models
`!IsFieldNull && IsFieldSet`, `intVal` the `GetFieldAsInteger(64)`
result, `realStr` the `std::to_string(GetFieldAsDouble)` rendering and
`strVal` the `GetFieldAsString` rendering, all supplied by the engine. -/
structure FieldData where
  name : String
  kind : FieldKind
  isSet : Bool
  intVal : Int
  realStr : String
  strVal : String

/-- The (value, type-label) pair of the preview switch
(native.cpp:631-663).  Note the string-typed renderings are wrapped in
raw double quotes with no escaping, exactly as in the source. -/
def renderFieldValue (f : FieldData) : String × String :=
  if f.isSet then
    match f.kind with
    | .integerField => (toString f.intVal, "Integer")
    | .integer64Field => (toString f.intVal, "Integer")
    | .realField => (f.realStr, "Float")
    | .stringField => ("\"" ++ f.strVal ++ "\"", "String")
    | .dateField => ("\"" ++ f.strVal ++ "\"", "Date")
    | .dateTimeField => ("\"" ++ f.strVal ++ "\"", "Date")
    | .otherField => ("\"" ++ f.strVal ++ "\"", "String")
  else ("null", "String")

/-- The `properties` array assembled from the first feature
(native.cpp:619-675): field names and values are concatenated raw,
without `escapeJsonString`. -/
def buildProperties (fields : List FieldData) : String :=
  "[" ++
    String.intercalate ","
      (fields.map (fun f =>
        let rv := renderFieldValue f
        "\x7b\"name\":\"" ++ f.name ++ "\",\"value\":" ++ rv.1 ++
          ",\"type\":\"" ++ rv.2 ++ "\"\x7d")) ++ "]"

/-- First-layer data the preview reads through the engine. -/
structure PreviewLayer where
  featureCount : Int
  geomTypeName : String
  hasSrs : Bool
  srsAuth : Option (String × String)
  srsWkt : String
  extent : Option Extent
  firstFeatureFields : Option (List FieldData)

/-- Abstract engine state for one `getVectorInfo` call. `epsgImportErr`
and `userInputErr` are the `OGRErr` results (0 = success) of
`importFromEPSG` and `SetFromUserInput` on the user label. -/
structure PreviewEngine where
  writeOk : Bool
  shpMember : Option String
  openOk : Bool
  layerCount : Nat
  layer0 : Option PreviewLayer
  projLib : Option String
  epsgImportErr : Nat
  userInputErr : Nat
  srs : SrsEngine

/-- The CRS display label and `debugCrs` trace computed for the first
layer (native.cpp:491-569). -/
def previewCrsAndDebug (eng : PreviewEngine) (sourceCrs : String)
    (L : PreviewLayer) : String × String :=
  let debug := match eng.projLib with
    | some p => "PROJ_LIB=" ++ p ++ "; "
    | none => "PROJ_LIB not set; "
  if sourceCrs ≠ "" then
    let debug := debug ++ "User provided sourceCrs: " ++ sourceCrs ++ "; "
    let afterEpsg :=
      if strStarts sourceCrs "EPSG:" || strStarts sourceCrs "epsg:" then
        match stoi? (strDrop sourceCrs 5) with
        | some code =>
          let debug := debug ++ "Trying importFromEPSG(" ++ toString code ++ "); "
          let err := eng.epsgImportErr
          let debug := if err ≠ 0 then
              debug ++ "importFromEPSG failed (error " ++ toString err ++ "); "
            else debug
          (err, debug)
        | none => (6, debug ++ "Failed to parse EPSG code; ")
      else (6, debug)
    let afterUser :=
      if afterEpsg.1 ≠ 0 then
        let debug := afterEpsg.2 ++ "Trying SetFromUserInput; "
        let err := eng.userInputErr
        let debug := if err ≠ 0 then
            debug ++ "SetFromUserInput failed (error " ++ toString err ++ "); "
          else debug
        (err, debug)
      else afterEpsg
    if afterUser.1 = 0 then
      (sourceCrs, afterUser.2 ++ "Successfully set user CRS; ")
    else
      (sourceCrs,
       afterUser.2 ++ "GDAL CRS methods failed, but will try PROJ for transform; ")
  else
    let debug := debug ++ "No sourceCrs provided; "
    if L.hasSrs then
      match L.srsAuth with
      | some pair =>
        let crs := pair.1 ++ ":" ++ pair.2
        (crs, debug ++ "Using layer CRS: " ++ crs ++ "; ")
      | none =>
        (strTake L.srsWkt 50, debug ++ "Using layer CRS from WKT; ")
    else ("Unknown", debug)

/-- The success-path JSON document of `getVectorInfo`
(native.cpp:466-682). -/
def previewJsonBody (eng : PreviewEngine) (sourceCrs : String) : String :=
  let json := "\x7b" ++ "\"layers\":" ++ toString eng.layerCount ++ ","
  let core :=
    if 0 < eng.layerCount then
      match eng.layer0 with
      | some L =>
        let json := json ++ "\"featureCount\":" ++ toString L.featureCount ++ ","
        let json := json ++ "\"geometryType\":\"" ++
          escapeJsonString L.geomTypeName ++ "\","
        let cd := previewCrsAndDebug eng sourceCrs L
        let json := json ++ "\"crs\":\"" ++ escapeJsonString cd.1 ++ "\","
        let json := json ++ "\"debugCrs\":\"" ++ escapeJsonString cd.2 ++ "\","
        let json :=
          match L.extent with
          | some ext =>
            let json := json ++ "\"bboxOriginal\":[" ++ fixed6 ext.minX ++ "," ++
              fixed6 ext.minY ++ "," ++ fixed6 ext.maxX ++ "," ++
              fixed6 ext.maxY ++ "],"
            let transformSourceCrs := if sourceCrs = "" then cd.1 else sourceCrs
            let tr := transformExtentToWgs84 eng.srs ext transformSourceCrs
            let json := json ++ (if tr.2.1 then "\"bboxReprojected\":true,"
              else "\"bboxReprojected\":false,")
            let json := json ++ "\"debugTransform\":\"" ++
              escapeJsonString tr.2.2 ++ "\","
            json ++ "\"bbox\":[" ++ fixed6 tr.1.minX ++ "," ++
              fixed6 tr.1.minY ++ "," ++ fixed6 tr.1.maxX ++ "," ++
              fixed6 tr.1.maxY ++ "],"
          | none => json
        let props :=
          match L.firstFeatureFields with
          | some fs => buildProperties fs
          | none => "[]"
        (json, props)
      | none => (json, "[]")
    else (json, "[]")
  core.1 ++ "\"properties\":" ++ core.2 ++ "\x7d"

/-- The scratch path the preview materialises a non-shapefile input at
(native.cpp:449-451). -/
def previewInputPath (inFmt : String) : String :=
  let e := getExtensionFromFormat inFmt
  "/vsimem/preview_input" ++ (if e = ".zip" then ".dat" else e)

/-- Model of `Native::getVectorInfo` (native.cpp:397-702): the returned
JSON document together with the list of scratch-store entries still
present when the call returns.  The materialised input is unlinked only
on the success path (native.cpp:684-690); the catch block
(native.cpp:692-698) builds the error document without removing it. -/
def getVectorInfoModel (eng : PreviewEngine) (inputFormat sourceCrs : String) :
    String × List String :=
  let inFmt := toLower inputFormat
  if inFmt = "shapefile" then
    if ¬eng.writeOk then
      ("\x7b\"error\":\"Failed to create input ZIP file\"\x7d", [])
    else
      let store := ["/vsimem/preview_input.zip"]
      match eng.shpMember with
      | none => ("\x7b\"error\":\"No .shp found in input ZIP\"\x7d", store)
      | some _ =>
        if ¬eng.openOk then
          ("\x7b\"error\":\"Failed to open input dataset\"\x7d", store)
        else (previewJsonBody eng sourceCrs, [])
  else
    if ¬eng.writeOk then
      ("\x7b\"error\":\"Failed to create input virtual file\"\x7d", [])
    else
      let store := [previewInputPath inFmt]
      if ¬eng.openOk then
        ("\x7b\"error\":\"Failed to open input dataset\"\x7d", store)
      else (previewJsonBody eng sourceCrs, [])

/-! ## JSON well-formedness checker

Modelled from the spec (§4.6): "syntactically well-formed JSON object" —
an executable recognizer of the RFC 8259 JSON grammar, used to state the
spec's well-formedness claim about the preview document. -/

def jsonWsChar (c : Char) : Bool :=
  c = ' ' || c = '\n' || c = '\r' || c = '\t'

def skipJsonWs : List Char → List Char
  | [] => []
  | c :: cs => if jsonWsChar c then skipJsonWs cs else c :: cs

def isHexChar (c : Char) : Bool :=
  ('0' ≤ c && c ≤ '9') || ('a' ≤ c && c ≤ 'f') || ('A' ≤ c && c ≤ 'F')

/-- Consume a JSON string after its opening quote; returns the input
after the closing quote. -/
def parseJsonStringBody : Nat → List Char → Option (List Char)
  | 0, _ => none
  | _ + 1, [] => none
  | fuel + 1, c :: cs =>
    if c = '"' then some cs
    else if c = '\\' then
      match cs with
      | [] => none
      | e :: cs2 =>
        if e = '"' || e = '\\' || e = '/' || e = 'b' || e = 'f' ||
            e = 'n' || e = 'r' || e = 't' then
          parseJsonStringBody fuel cs2
        else if e = 'u' then
          match cs2 with
          | a :: b :: c2 :: d :: cs3 =>
            if isHexChar a && isHexChar b && isHexChar c2 && isHexChar d then
              parseJsonStringBody fuel cs3
            else none
          | _ => none
        else none
    else if c.toNat < 0x20 then none
    else parseJsonStringBody fuel cs

/-- One or more digits. -/
def parseDigitRun : List Char → Option (List Char)
  | c :: cs => if isDigitChar c then some (cs.dropWhile isDigitChar) else none
  | [] => none

def parseJsonExp (cs : List Char) : Option (List Char) :=
  match cs with
  | 'e' :: r => parseDigitRun (match r with
      | '+' :: r2 => r2
      | '-' :: r2 => r2
      | _ => r)
  | 'E' :: r => parseDigitRun (match r with
      | '+' :: r2 => r2
      | '-' :: r2 => r2
      | _ => r)
  | _ => some cs

def parseJsonFrac (cs : List Char) : Option (List Char) :=
  match cs with
  | '.' :: r =>
    match parseDigitRun r with
    | some rest => parseJsonExp rest
    | none => none
  | _ => parseJsonExp cs

def parseJsonNumber (cs : List Char) : Option (List Char) :=
  let cs1 := match cs with
    | '-' :: r => r
    | r => r
  match cs1 with
  | '0' :: r => parseJsonFrac r
  | c :: r =>
    if '1' ≤ c && c ≤ '9' then parseJsonFrac (r.dropWhile isDigitChar)
    else none
  | [] => none

mutual

def parseJsonValue : Nat → List Char → Option (List Char)
  | 0, _ => none
  | fuel + 1, cs =>
    match skipJsonWs cs with
    | '\x7b' :: rest => parseJsonMembersStart fuel rest
    | '[' :: rest => parseJsonItemsStart fuel rest
    | '"' :: rest => parseJsonStringBody (rest.length + 1) rest
    | 't' :: 'r' :: 'u' :: 'e' :: rest => some rest
    | 'f' :: 'a' :: 'l' :: 's' :: 'e' :: rest => some rest
    | 'n' :: 'u' :: 'l' :: 'l' :: rest => some rest
    | other => parseJsonNumber other

def parseJsonMembersStart : Nat → List Char → Option (List Char)
  | 0, _ => none
  | fuel + 1, cs =>
    match skipJsonWs cs with
    | '\x7d' :: rest => some rest
    | other => parseJsonMember fuel other

def parseJsonMember : Nat → List Char → Option (List Char)
  | 0, _ => none
  | fuel + 1, cs =>
    match skipJsonWs cs with
    | '"' :: rest =>
      match parseJsonStringBody (rest.length + 1) rest with
      | none => none
      | some afterKey =>
        match skipJsonWs afterKey with
        | ':' :: afterColon =>
          match parseJsonValue fuel afterColon with
          | none => none
          | some afterVal =>
            match skipJsonWs afterVal with
            | ',' :: rest2 => parseJsonMember fuel rest2
            | '\x7d' :: rest2 => some rest2
            | _ => none
        | _ => none
    | _ => none

def parseJsonItemsStart : Nat → List Char → Option (List Char)
  | 0, _ => none
  | fuel + 1, cs =>
    match skipJsonWs cs with
    | ']' :: rest => some rest
    | other => parseJsonItem fuel other

def parseJsonItem : Nat → List Char → Option (List Char)
  | 0, _ => none
  | fuel + 1, cs =>
    match parseJsonValue fuel cs with
    | none => none
    | some afterVal =>
      match skipJsonWs afterVal with
      | ',' :: rest => parseJsonItem fuel rest
      | ']' :: rest => some rest
      | _ => none

end

/-- A string is a syntactically well-formed JSON value consuming the
whole input (up to surrounding whitespace). -/
def isValidJsonValue (s : String) : Bool :=
  match parseJsonValue (s.data.length + 8) s.data with
  | some rest => (skipJsonWs rest).isEmpty
  | none => false

/-- A string is a syntactically well-formed JSON object. -/
def isValidJsonObject (s : String) : Bool :=
  (match skipJsonWs s.data with
   | '\x7b' :: _ => true
   | _ => false) && isValidJsonValue s

/-! ## convertVector (native.cpp:704-984) -/

/-- Abstract engine state for one `convertVector` call: `msgs` are the
messages the engine pushes through the registered handler during the
operation, `cplMsg` the engine's own `CPLGetLastErrorMsg()` buffer,
the `Ok` flags the outcomes of the successive engine steps, `layers`,
`count` and `famTranslateOk` the splitter oracle for shapefile output,
`zipBytes` the bytes of the assembled output archive and `outBytes` the
bytes read back from the single non-shapefile output. -/
structure ConvertEngine where
  msgs : List (CplSev × String)
  cplMsg : String
  writeOk : Bool
  shpMember : Option String
  openOk : Bool
  hasEmbeddedCrs : Bool
  layers : List String
  count : String → String → Int
  famTranslateOk : String → Bool
  zipBytes : List Nat
  translateOk : Bool
  outBytes : List Nat

/-- The try-block of `convertVector` (native.cpp:734-963): either the
output bytes, or the message of the exception that aborted it.  A family
translate that fails is modelled as writing nothing, so "No shapefile
components created" fires when no family file was produced
(native.cpp:833-835). -/
def convertAttempt (eng : ConvertEngine) (r : ConvertRequest) :
    Except String (List Nat) :=
  let inFmt := toLower r.inputFormat
  let driver := getDriverNameFromFormat r.outputFormat
  let materialize : Except String Unit :=
    if inFmt = "shapefile" then
      if ¬eng.writeOk then .error "Failed to create input ZIP file"
      else
        match eng.shpMember with
        | none => .error "No .shp found in input ZIP"
        | some _ => .ok ()
    else if ¬eng.writeOk then .error "Failed to create input virtual file"
    else .ok ()
  match materialize with
  | .error e => .error e
  | .ok _ =>
    if ¬eng.openOk then .error "Failed to open input dataset"
    else if driver = "ESRI Shapefile" then
      let produced := splitOutputs ⟨eng.layers, eng.count, eng.famTranslateOk⟩ r
      if produced.isEmpty then .error "No shapefile components created"
      else if eng.zipBytes.isEmpty then .error "Failed to create shapefile ZIP"
      else .ok eng.zipBytes
    else if ¬eng.translateOk then .error "Vector translate failed"
    else if eng.outBytes.isEmpty then .error "Failed to read output data"
    else .ok eng.outBytes

/-- The CRS annotation appended by the in-try synthesis block
(native.cpp:956-959). -/
def crsSuffixFor (r : ConvertRequest) : String :=
  " (source CRS: " ++ (if r.sourceCrs = "" then "auto" else r.sourceCrs) ++
  ", target CRS: " ++ (if r.targetCrs = "" then "auto" else r.targetCrs) ++ ")"

/-- The synthesized-diagnostic block guarded by `result.empty()` inside
the try block (native.cpp:951-963). -/
def emptyResultSynthesis (d : Diag) (eng : ConvertEngine)
    (r : ConvertRequest) (driver : String) : Diag :=
  let d := ensureLastErrorMessage d eng.cplMsg
  let d := if d.lastError = "" then
      { d with lastError := "GDAL returned an empty dataset" } else d
  let d := if r.sourceCrs ≠ "" ∨ r.targetCrs ≠ "" then
      { d with lastError := d.lastError ++ crsSuffixFor r } else d
  if driver ≠ "" then { d with lastError := d.lastError ++ " driver=" ++ driver }
  else d

/-- The final fallback after the try/catch (native.cpp:976-981). -/
def finalFallback (d : Diag) (cplMsg : String) : Diag :=
  if (ensureLastErrorMessage d cplMsg).lastError = "" then
    { ensureLastErrorMessage d cplMsg with
        lastError := "No output produced by GDAL" }
  else ensureLastErrorMessage d cplMsg

/-- Model of `Native::convertVector` (native.cpp:704-984): the returned
byte vector (empty on failure) and the value `getLastError()` reports
afterwards.  The catch block (native.cpp:965-972) runs
`ensureLastErrorMessage`, falls back to the exception text, and clears
the result. -/
def convertVectorModel (eng : ConvertEngine) (r : ConvertRequest) :
    List Nat × String :=
  let d := runHandler eng.msgs
  let driver := getDriverNameFromFormat r.outputFormat
  match convertAttempt eng r with
  | .ok bytes =>
    let d := if bytes.isEmpty then emptyResultSynthesis d eng r driver else d
    let d := if bytes.isEmpty then finalFallback d eng.cplMsg else d
    (bytes, d.lastError)
  | .error e =>
    let d := ensureLastErrorMessage d eng.cplMsg
    let d := if d.lastError = "" then { d with lastError := e } else d
    let d := finalFallback d eng.cplMsg
    ([], d.lastError)

/-! ## Shared concrete instances used by witnesses and counterexamples -/

/-- Last element of a list, or `d` when the list is empty (the value a
sequence of overwrites leaves behind). -/
def lastOr : List String → String → String
  | [], d => d
  | x :: xs, _ => lastOr xs x

/-- Engine whose spatial-reference operations all fail. -/
def srsNone : SrsEngine :=
  ⟨fun _ => 6, fun _ => false, fun _ => false, fun _ _ => none⟩

/-- Engine that parses every label, never equates it with WGS84, and
transforms every point by the pure translation (+1, +2). -/
def srsShift : SrsEngine :=
  ⟨fun _ => 0, fun _ => false, fun _ => true,
   fun _ p => some (p.1 + 1, p.2 + 2)⟩

/-- First layer whose single first-feature field has a double quote in
its name. -/
def layerQuotedField : PreviewLayer :=
  { featureCount := 1, geomTypeName := "Point", hasSrs := false,
    srsAuth := none, srsWkt := "", extent := none,
    firstFeatureFields := some [⟨"a\"b", .stringField, true, 0, "", "x"⟩] }

/-- Same layer with an unproblematic field name. -/
def layerPlainField : PreviewLayer :=
  { featureCount := 1, geomTypeName := "Point", hasSrs := false,
    srsAuth := none, srsWkt := "", extent := none,
    firstFeatureFields := some [⟨"ab", .stringField, true, 0, "", "x"⟩] }

/-- Preview engine that opens a one-layer dataset whose first feature
carries the quoted field name. -/
def engPreviewQuoted : PreviewEngine :=
  { writeOk := true, shpMember := none, openOk := true, layerCount := 1,
    layer0 := some layerQuotedField, projLib := none, epsgImportErr := 6,
    userInputErr := 6, srs := srsNone }

/-- The same engine with the plain field name. -/
def engPreviewPlain : PreviewEngine :=
  { engPreviewQuoted with layer0 := some layerPlainField }

/-- Preview engine whose open step fails. -/
def engPreviewOpenFail : PreviewEngine :=
  { engPreviewQuoted with openOk := false }

/-- A GeoJSON-to-GeoPackage request with both CRSes set and all other
options at their defaults. -/
def reqBase : ConvertRequest :=
  { inputFormat := "geojson", outputFormat := "geopackage",
    sourceCrs := "EPSG:4326", targetCrs := "EPSG:3857", layerName := "",
    geometryTypeFilter := "", skipFailures := false, makeValid := false,
    keepZ := false, whereClause := "", selectFields := "",
    simplifyTolerance := 0, explodeCollections := false,
    preserveFid := false, geojsonPrecision := 6, csvGeometryMode := "" }

/-- Convert engine where materialization and open succeed, the translate
fails, and the engine records no message at all. -/
def engTranslateFail : ConvertEngine :=
  { msgs := [], cplMsg := "", writeOk := true, shpMember := none,
    openOk := true, hasEmbeddedCrs := true, layers := [],
    count := fun _ _ => 0, famTranslateOk := fun _ => false,
    zipBytes := [], translateOk := false, outBytes := [] }

/-- A single-layer source with 3 points, 0 multipoints, 5 line features
and 2 polygon features, every family translate succeeding (the spec's
§8 splitter scenario). -/
def splitEngExample : SplitEngine :=
  ⟨["roads"],
   fun _ w =>
     if w = familyWhere .point then 3
     else if w = familyWhere .multipoint then 0
     else if w = familyWhere .lines then 5
     else 2,
   fun _ => true⟩

/-! ## Helper lemmas -/

theorem lastOr_cons (x : String) (xs : List String) (d : String) :
    lastOr (x :: xs) d = lastOr xs x := rfl

theorem lastOr_mem : ∀ (l : List String) (d : String), l ≠ [] → lastOr l d ∈ l := by
  intro l
  induction l with
  | nil => intro d h; exact absurd rfl h
  | cons x xs ih =>
    intro d _
    rw [lastOr_cons]
    cases xs with
    | nil => simp [lastOr]
    | cons y ys => exact List.mem_cons_of_mem _ (ih x (by simp))

theorem lastOr_empty_iff {l : List String} (h : ∀ x ∈ l, x ≠ "") :
    (lastOr l "" = "" ↔ l = []) := by
  constructor
  · intro he
    by_contra hne
    exact h _ (lastOr_mem l "" hne) he
  · intro he; subst he; rfl

theorem errHandler_foldl_lastError (msgs : List (CplSev × String)) :
    ∀ d : Diag,
      (msgs.foldl (fun d m => errHandler d m.1 m.2) d).lastError
        = lastOr (failTexts msgs) d.lastError := by
  induction msgs with
  | nil => intro d; simp [failTexts, lastOr]
  | cons m rest ih =>
    intro d
    obtain ⟨sev, msg⟩ := m
    by_cases hm : msg = "" <;>
      cases sev <;>
        simp [failTexts, isFailClass, errHandler, recordErrorMessage,
              recordInfoMessage, hm, List.filter_cons, lastOr_cons, ih,
              failTexts] <;>
          simpa [failTexts] using ih _

theorem errHandler_foldl_lastInfo (msgs : List (CplSev × String)) :
    ∀ d : Diag,
      (msgs.foldl (fun d m => errHandler d m.1 m.2) d).lastInfo
        = lastOr (infoTexts msgs) d.lastInfo := by
  induction msgs with
  | nil => intro d; simp [infoTexts, lastOr]
  | cons m rest ih =>
    intro d
    obtain ⟨sev, msg⟩ := m
    by_cases hm : msg = "" <;>
      cases sev <;>
        simp [infoTexts, isInfoClass, errHandler, recordErrorMessage,
              recordInfoMessage, hm, List.filter_cons, lastOr_cons, ih,
              infoTexts] <;>
          simpa [infoTexts] using ih _

theorem failTexts_all_ne (msgs : List (CplSev × String)) :
    ∀ x ∈ failTexts msgs, x ≠ "" := by
  intro x hx
  unfold failTexts at hx
  simp only [List.mem_map, List.mem_filter] at hx
  obtain ⟨m, ⟨_, hcond⟩, hsnd⟩ := hx
  simp only [Bool.and_eq_true, Bool.not_eq_true', beq_eq_false_iff_ne] at hcond
  subst hsnd
  exact hcond.2

theorem infoTexts_all_ne (msgs : List (CplSev × String)) :
    ∀ x ∈ infoTexts msgs, x ≠ "" := by
  intro x hx
  unfold infoTexts at hx
  simp only [List.mem_map, List.mem_filter] at hx
  obtain ⟨m, ⟨_, hcond⟩, hsnd⟩ := hx
  simp only [Bool.and_eq_true, Bool.not_eq_true', beq_eq_false_iff_ne] at hcond
  subst hsnd
  exact hcond.2

/-! ## Claim theorems -/

/-- C1: the CRS policy resolver implements the spec's decision table
exactly — for every combination of source given / target given /
dataset-embedded CRS, with the two labels distinct whenever both are
given, `pushCrsArgs` emits exactly the directives of the spec-side
resolver: `-s_srs`+`-t_srs` when both are given, `-a_srs source` when
only the source is given, `-a_srs target` (no embedded CRS) or
`-t_srs target` (embedded CRS) when only the target is given, and
nothing when neither is given. -/
theorem crsPolicy_decision_table (emb : Bool) (src tgt : String)
    (h : src ≠ "" → tgt ≠ "" → src ≠ tgt) :
    pushCrsArgs emb src tgt = crsDirectiveArgs (resolveCrsSpec src tgt emb) := by
  by_cases hs : src = ""
  · by_cases ht : tgt = "" <;>
      cases emb <;>
        simp [pushCrsArgs, resolveCrsSpec, crsDirectiveArgs, hs, ht]
  · by_cases ht : tgt = ""
    · cases emb <;>
        simp [pushCrsArgs, resolveCrsSpec, crsDirectiveArgs, hs, ht]
    · have hne := h hs ht
      cases emb <;>
        simp [pushCrsArgs, resolveCrsSpec, crsDirectiveArgs, hs, ht, hne]

/-- Witness for C1 at a concrete both-given pair of distinct CRS labels. -/
theorem crsPolicy_decision_table_witness :
    ("EPSG:4326" ≠ "" → "EPSG:3857" ≠ "" → "EPSG:4326" ≠ "EPSG:3857") ∧
    pushCrsArgs true "EPSG:4326" "EPSG:3857" =
      crsDirectiveArgs (resolveCrsSpec "EPSG:4326" "EPSG:3857" true) :=
  ⟨by decide, crsPolicy_decision_table true "EPSG:4326" "EPSG:3857" (by decide)⟩

/-- C10: when source and target CRS are both non-empty and equal, the
resolver emits no directive at all, for either value of the embedded-CRS
probe — the same output as when neither CRS is given. -/
theorem crsPolicy_equal_crs_noop (emb : Bool) (s : String) (h : s ≠ "") :
    pushCrsArgs emb s s = [] ∧ pushCrsArgs emb "" "" = [] := by
  constructor
  · simp [pushCrsArgs, h]
  · simp [pushCrsArgs]

/-- Witness for C10 at a concrete label. -/
theorem crsPolicy_equal_crs_noop_witness :
    ("EPSG:4326" ≠ "") ∧
    (pushCrsArgs true "EPSG:4326" "EPSG:4326" = [] ∧
     pushCrsArgs true "" "" = []) :=
  ⟨by decide, crsPolicy_equal_crs_noop true "EPSG:4326" (by decide)⟩

/-- C3 (counterexample): the claim says the first Failure-severity
message wins, but after two failures "A" then "B" the channel reports
"B", not "A" — `recordErrorMessage` overwrites unconditionally. -/
theorem diagChannel_first_failure_refuted :
    ¬ (channelResult [(CplSev.failure, "A"), (CplSev.failure, "B")] "" = "A") := by
  decide

/-- C3 (amended): the channel starts from the reset state, and the
reported message is the LAST (most recent) nonempty Failure-severity
message when at least one was recorded; when none was, it is the
engine's own buffered message if nonempty, and otherwise the most recent
nonempty Warning/Debug-severity message. -/
theorem diagChannel_last_failure_else_last_info
    (msgs : List (CplSev × String)) (cpl : String) :
    channelResult msgs cpl =
      if failTexts msgs ≠ [] then lastOr (failTexts msgs) ""
      else if cpl ≠ "" then cpl
      else lastOr (infoTexts msgs) "" := by
  have hE : (runHandler msgs).lastError = lastOr (failTexts msgs) "" := by
    unfold runHandler
    simpa [resetDiag] using errHandler_foldl_lastError msgs resetDiag
  have hI : (runHandler msgs).lastInfo = lastOr (infoTexts msgs) "" := by
    unfold runHandler
    simpa [resetDiag] using errHandler_foldl_lastInfo msgs resetDiag
  unfold channelResult ensureLastErrorMessage
  by_cases hf : failTexts msgs = []
  · have h0 : (runHandler msgs).lastError = "" := by
      rw [hE, hf]; rfl
    by_cases hc : cpl = ""
    · by_cases hi : infoTexts msgs = []
      · have h1 : (runHandler msgs).lastInfo = "" := by
          rw [hI, hi]; rfl
        simp [h0, h1, hc, hf, hi, lastOr]
      · have h2 : lastOr (infoTexts msgs) "" ≠ "" := by
          intro he
          exact hi ((lastOr_empty_iff (infoTexts_all_ne msgs)).mp he)
        have h1 : (runHandler msgs).lastInfo ≠ "" := by rw [hI]; exact h2
        simp [h0, h1, hc, hf, hI, h2]
    · simp [h0, hc, hf]
  · have h2 : lastOr (failTexts msgs) "" ≠ "" := by
      intro he
      exact hf ((lastOr_empty_iff (failTexts_all_ne msgs)).mp he)
    have h1 : (runHandler msgs).lastError ≠ "" := by rw [hE]; exact h2
    simp [h1, hf, hE, h2]

/-- The final fallback of `convertVector` always leaves a nonempty
diagnostic. -/
theorem finalFallback_lastError_ne (d : Diag) (cpl : String) :
    (finalFallback d cpl).lastError ≠ "" := by
  unfold finalFallback
  split
  · simp
  · next h => exact h

/-- C5 (amended): `convert` never raises past its boundary (the model is
a total function); every failure collapses to an empty byte vector, and
whenever the returned vector is empty `getLastError()` is non-empty —
coming from the recorded engine message, the failing step's own
description, or the generic fallback, rather than from the
driver/CRS-naming synthesis, which is unreachable with an empty
result. -/
theorem convert_empty_result_has_diagnostic (eng : ConvertEngine)
    (r : ConvertRequest) (h : (convertVectorModel eng r).1 = []) :
    (convertVectorModel eng r).2 ≠ "" := by
  unfold convertVectorModel at h ⊢
  cases hA : convertAttempt eng r with
  | ok bytes =>
    simp only [hA] at h ⊢
    have hb : bytes.isEmpty = true := by simp [h]
    simp only [hb, if_true]
    exact finalFallback_lastError_ne _ _
  | error e =>
    simp only [hA]
    exact finalFallback_lastError_ne _ _

/-- Witness for C5 at a concrete silent translate failure. -/
theorem convert_empty_result_has_diagnostic_witness :
    (convertVectorModel engTranslateFail reqBase).1 = [] ∧
    (convertVectorModel engTranslateFail reqBase).2 ≠ "" :=
  ⟨by decide, convert_empty_result_has_diagnostic engTranslateFail reqBase (by decide)⟩

/-- C5 (counterexample): with no engine message recorded at all, a
failed translate yields the exception text "Vector translate failed" —
a message that names neither the targeted driver ("GPKG") nor either
CRS label, contradicting the claim's description of the synthesized
fallback. -/
theorem convert_fallback_does_not_name_driver :
    (convertVectorModel engTranslateFail reqBase).1 = [] ∧
    (convertVectorModel engTranslateFail reqBase).2 = "Vector translate failed" ∧
    strContains (convertVectorModel engTranslateFail reqBase).2 "GPKG" = false ∧
    strContains (convertVectorModel engTranslateFail reqBase).2 "EPSG" = false := by
  refine ⟨by decide, by decide, by decide, by decide⟩

/-- C2 (code evaluated at the failing input): when the open step fails on
a GeoJSON preview, the call returns the error document but the
materialized scratch input `/vsimem/preview_input.geojson` is still in
the scratch store — the catch path performs no unlink, contradicting the
remove-on-every-exit-path contract. -/
theorem preview_scratch_leak_on_open_failure :
    getVectorInfoModel engPreviewOpenFail "geojson" "" =
      ("\x7b\"error\":\"Failed to open input dataset\"\x7d",
       ["/vsimem/preview_input.geojson"]) ∧
    ["/vsimem/preview_input.geojson"] ≠ ([] : List String) := by
  refine ⟨by decide, by decide⟩

set_option maxRecDepth 10000 in
/-- C4 (code evaluated at the failing input): a first-feature field named
`a"b` makes the preview document syntactically malformed JSON, because
field names and values are concatenated without `escapeJsonString`. -/
theorem preview_json_malformed_on_quoted_field_name :
    (getVectorInfoModel engPreviewQuoted "geojson" "").1 =
      "\x7b\"layers\":1,\"featureCount\":1,\"geometryType\":\"Point\"," ++
      "\"crs\":\"Unknown\",\"debugCrs\":\"PROJ_LIB not set; No sourceCrs provided; \"," ++
      "\"properties\":[\x7b\"name\":\"a\"b\",\"value\":\"x\",\"type\":\"String\"\x7d]\x7d" ∧
    isValidJsonObject (getVectorInfoModel engPreviewQuoted "geojson" "").1 = false := by
  refine ⟨by decide, by decide⟩

set_option maxRecDepth 10000 in
/-- Companion check: with a field name free of JSON-special characters
the very same assembly yields a well-formed JSON object, isolating the
missing escaping as the cause of the malformation. -/
theorem preview_json_wellformed_on_plain_field_name :
    isValidJsonObject (getVectorInfoModel engPreviewPlain "geojson" "").1 = true := by
  decide

theorem app_ite (c : Prop) [Decidable c] (a x : List String) :
    (if c then a ++ x else a) = a ++ (if c then x else []) := by
  split <;> simp

theorem foldl_if_append {α β : Type} (p : α → Bool) (g : α → β) :
    ∀ (l : List α) (init : List β),
      l.foldl (fun acc a => if p a then acc ++ [g a] else acc) init
        = init ++ (l.filter p).map g := by
  intro l
  induction l with
  | nil => intro init; simp
  | cons a t ih =>
    intro init
    by_cases h : p a <;>
      simp [h, ih, List.filter_cons, List.append_assoc]

theorem foldl_append_acc {α β : Type} (f : α → List β) :
    ∀ (l : List α) (init : List β),
      l.foldl (fun acc a => acc ++ f a) init = init ++ l.flatMap f := by
  intro l
  induction l with
  | nil => intro init; simp
  | cons a t ih =>
    intro init
    simp [ih, List.append_assoc]

theorem splitLayer_eq (eng : SplitEngine) (r : ConvertRequest) (l : String) :
    splitLayer eng r l =
      (allFamilies.filter (fun fam =>
        decide (0 < eng.count l (familyWhere fam)) &&
          eng.famTranslateOk (shpOutPath r.layerName l fam))).map
        (fun fam => shpOutPath r.layerName l fam) := by
  have hfun :
      (fun (acc : List String) (fam : GeomFamily) =>
        if eng.count l (familyWhere fam) ≤ 0 then acc
        else if eng.famTranslateOk (shpOutPath r.layerName l fam) then
          acc ++ [shpOutPath r.layerName l fam]
        else acc)
      = fun (acc : List String) (fam : GeomFamily) =>
        if (decide (0 < eng.count l (familyWhere fam)) &&
            eng.famTranslateOk (shpOutPath r.layerName l fam)) = true then
          acc ++ [shpOutPath r.layerName l fam]
        else acc := by
    funext acc fam
    by_cases h1 : eng.count l (familyWhere fam) ≤ 0
    · simp [h1, not_lt.mpr h1]
    · by_cases h2 : eng.famTranslateOk (shpOutPath r.layerName l fam) <;>
        simp [h1, h2, lt_of_not_le h1]
  unfold splitLayer
  rw [hfun, foldl_if_append]
  simp

set_option maxHeartbeats 1600000 in
/-- C6: for shapefile output the splitter produces, per source layer,
exactly one member for each geometry family whose predicate-query count
is positive and whose per-family translate succeeds — named
`<layerNameOrOverride><familySuffix>.shp` — with zero-count families
yielding no file and a failed family translate skipping only that family
while the remaining families and layers continue; the `PROMOTE_TO_MULTI`
geometry directive is carried exactly by the Line and Polygon families;
and on the spec's 3-point/0-multipoint/5-line/2-polygon example exactly
the three expected members are produced. -/
theorem shapefile_splitter_outputs :
    (∀ (eng : SplitEngine) (r : ConvertRequest),
      splitOutputs eng r =
        eng.layers.flatMap (fun lname =>
          (allFamilies.filter (fun fam =>
            decide (0 < eng.count lname (familyWhere fam)) &&
              eng.famTranslateOk (shpOutPath r.layerName lname fam))).map
            (fun fam => shpOutPath r.layerName lname fam))) ∧
    (∀ fam, familyPromote fam =
      decide (fam = GeomFamily.lines ∨ fam = GeomFamily.polygons)) ∧
    (∀ (r : ConvertRequest) (emb : Bool) (fam : GeomFamily) (bn : String),
      shpFamilyArgs r emb fam bn =
        ["-f", "ESRI Shapefile", "-where", familyWhere fam, "-nln", bn,
         "-dim", if r.keepZ then "XYZ" else "XY"] ++
        (if r.explodeCollections then ["-explodecollections"] else []) ++
        (if familyPromote fam then ["-nlt", "PROMOTE_TO_MULTI"] else []) ++
        (if r.skipFailures then ["-skipfailures"] else []) ++
        (if r.makeValid then ["-makevalid"] else []) ++
        (if r.preserveFid then ["-preserve_fid"] else []) ++
        (if 0 < r.simplifyTolerance then
          ["-simplify", toString r.simplifyTolerance] else []) ++
        pushDriverLCO "ESRI Shapefile" r.geojsonPrecision r.csvGeometryMode ++
        pushCrsArgs emb r.sourceCrs r.targetCrs) ∧
    splitOutputs splitEngExample reqBase =
      ["/vsimem/shp_output/roads_point.shp",
       "/vsimem/shp_output/roads_lines.shp",
       "/vsimem/shp_output/roads_polygons.shp"] := by
  refine ⟨?_, ?_, ?_, ?_⟩
  · intro eng r
    unfold splitOutputs
    rw [foldl_append_acc]
    simp only [List.nil_append]
    congr 1
    funext lname
    exact splitLayer_eq eng r lname
  · intro fam; cases fam <;> decide
  · intro r emb fam bn
    have hlco : pushDriverLCO "ESRI Shapefile" r.geojsonPrecision r.csvGeometryMode
        = ["-lco", "ENCODING=UTF-8"] := rfl
    unfold shpFamilyArgs
    rw [hlco]
    split_ifs <;> rfl
  · decide

/-- C7: the extent reprojection estimator returns the original extent
unchanged with `reprojected = false` whenever the source CRS label is
empty, or matches WGS84 lexically (the case-insensitive test on
`epsg:4326`, `wgs84`, `wgs 84` and substring containment of the latter
two), or parses to a spatial reference the engine equates with WGS84. -/
theorem estimator_wgs84_shortcircuit (eng : SrsEngine) (e : Extent)
    (crs : String)
    (h : crs = "" ∨ isWgs84Lexical crs = true ∨
         (eng.parseErr crs = 0 ∧ eng.isSameWgs84 crs = true)) :
    (transformExtentToWgs84 eng e crs).1 = e ∧
    (transformExtentToWgs84 eng e crs).2.1 = false := by
  by_cases hc : crs = ""
  · simp [transformExtentToWgs84, hc]
  · by_cases hl : isWgs84Lexical crs
    · simp [transformExtentToWgs84, hc, hl]
    · rcases h with h | h | ⟨h1, h2⟩
      · exact absurd h hc
      · exact absurd h (by simpa using hl)
      · simp [transformExtentToWgs84, hc, hl, h1, h2]

/-- Witness for C7 at both of the spec's concrete labels. -/
theorem estimator_wgs84_shortcircuit_witness :
    (isWgs84Lexical "EPSG:4326" = true ∧ isWgs84Lexical "wgs84" = true) ∧
    ((transformExtentToWgs84 srsNone ⟨0, 0, 1, 1⟩ "EPSG:4326").1 = ⟨0, 0, 1, 1⟩ ∧
     (transformExtentToWgs84 srsNone ⟨0, 0, 1, 1⟩ "EPSG:4326").2.1 = false) ∧
    ((transformExtentToWgs84 srsNone ⟨0, 0, 1, 1⟩ "wgs84").1 = ⟨0, 0, 1, 1⟩ ∧
     (transformExtentToWgs84 srsNone ⟨0, 0, 1, 1⟩ "wgs84").2.1 = false) :=
  ⟨⟨by decide, by decide⟩,
   estimator_wgs84_shortcircuit srsNone ⟨0, 0, 1, 1⟩ "EPSG:4326"
     (Or.inr (Or.inl (by decide))),
   estimator_wgs84_shortcircuit srsNone ⟨0, 0, 1, 1⟩ "wgs84"
     (Or.inr (Or.inl (by decide)))⟩

theorem foldl_min_le (xs : List ℚ) :
    ∀ (a x : ℚ), x ∈ a :: xs → xs.foldl min a ≤ x := by
  induction xs with
  | nil =>
    intro a x hx
    simp only [List.mem_singleton] at hx
    simp [hx]
  | cons y ys ih =>
    intro a x hx
    simp only [List.foldl_cons]
    have hbase : ys.foldl min (min a y) ≤ min a y :=
      ih (min a y) (min a y) (List.mem_cons_self _ _)
    rcases List.mem_cons.mp hx with h | hx2
    · rw [h]
      exact le_trans hbase (min_le_left a y)
    · rcases List.mem_cons.mp hx2 with h | h
      · rw [h]
        exact le_trans hbase (min_le_right a y)
      · exact ih (min a y) x (List.mem_cons_of_mem _ h)

theorem foldl_min_mem (xs : List ℚ) : ∀ a : ℚ, xs.foldl min a ∈ a :: xs := by
  induction xs with
  | nil => intro a; simp
  | cons y ys ih =>
    intro a
    simp only [List.foldl_cons]
    rcases List.mem_cons.mp (ih (min a y)) with h1 | h1
    · rw [h1]
      rcases min_choice a y with hm | hm <;> rw [hm] <;> simp
    · exact List.mem_cons_of_mem _ (List.mem_cons_of_mem _ h1)

theorem foldl_max_ge (xs : List ℚ) :
    ∀ (a x : ℚ), x ∈ a :: xs → x ≤ xs.foldl max a := by
  induction xs with
  | nil =>
    intro a x hx
    simp only [List.mem_singleton] at hx
    simp [hx]
  | cons y ys ih =>
    intro a x hx
    simp only [List.foldl_cons]
    have hbase : max a y ≤ ys.foldl max (max a y) :=
      ih (max a y) (max a y) (List.mem_cons_self _ _)
    rcases List.mem_cons.mp hx with h | hx2
    · rw [h]
      exact le_trans (le_max_left a y) hbase
    · rcases List.mem_cons.mp hx2 with h | h
      · rw [h]
        exact le_trans (le_max_right a y) hbase
      · exact ih (max a y) x (List.mem_cons_of_mem _ h)

theorem foldl_max_mem (xs : List ℚ) : ∀ a : ℚ, xs.foldl max a ∈ a :: xs := by
  induction xs with
  | nil => intro a; simp
  | cons y ys ih =>
    intro a
    simp only [List.foldl_cons]
    rcases List.mem_cons.mp (ih (max a y)) with h1 | h1
    · rw [h1]
      rcases max_choice a y with hm | hm <;> rw [hm] <;> simp
    · exact List.mem_cons_of_mem _ (List.mem_cons_of_mem _ h1)

theorem minOf_le {l : List ℚ} {x : ℚ} (hx : x ∈ l) : minOf l ≤ x := by
  cases l with
  | nil => exact absurd hx (List.not_mem_nil x)
  | cons a xs => exact foldl_min_le xs a x hx

theorem minOf_mem {l : List ℚ} (h : l ≠ []) : minOf l ∈ l := by
  cases l with
  | nil => exact absurd rfl h
  | cons a xs => exact foldl_min_mem xs a

theorem le_maxOf {l : List ℚ} {x : ℚ} (hx : x ∈ l) : x ≤ maxOf l := by
  cases l with
  | nil => exact absurd hx (List.not_mem_nil x)
  | cons a xs => exact foldl_max_ge xs a x hx

theorem maxOf_mem {l : List ℚ} (h : l ≠ []) : maxOf l ∈ l := by
  cases l with
  | nil => exact absurd rfl h
  | cons a xs => exact foldl_max_mem xs a

theorem transformAll_ok_length (f : ℚ × ℚ → Option (ℚ × ℚ)) :
    ∀ (l : List (ℚ × ℚ)) (i : Nat) (tps : List (ℚ × ℚ)),
      transformAll f l i = .ok tps → tps.length = l.length := by
  intro l
  induction l with
  | nil =>
    intro i tps h
    simp only [transformAll] at h
    cases h
    rfl
  | cons p rest ih =>
    intro i tps h
    simp only [transformAll] at h
    cases hf : f p with
    | none => rw [hf] at h; cases h
    | some q =>
      rw [hf] at h
      cases hr : transformAll f rest (i + 1) with
      | error j => rw [hr] at h; cases h
      | ok qs =>
        rw [hr] at h
        cases h
        simp [ih (i + 1) qs hr]

theorem boundarySamples_length (e : Extent) :
    (boundarySamples e).length = 36 := rfl

theorem edgeSamples_head_mem (x0 y0 x1 y1 : ℚ) :
    (x0, y0) ∈ edgeSamples x0 y0 x1 y1 := by
  unfold edgeSamples
  have h0 : (0 : ℕ) ∈ List.range 9 := by decide
  have h1 := List.mem_map_of_mem
    (fun i : ℕ => (x0 + (x1 - x0) * ((i : ℚ) / 8),
      y0 + (y1 - y0) * ((i : ℚ) / 8))) h0
  have he : (fun i : ℕ => (x0 + (x1 - x0) * ((i : ℚ) / 8),
      y0 + (y1 - y0) * ((i : ℚ) / 8))) 0 = (x0, y0) := by norm_num
  rw [he] at h1
  exact h1

theorem corner_bottom (e : Extent) : (e.minX, e.minY) ∈ boundarySamples e := by
  unfold boundarySamples
  exact List.mem_append_left _ (List.mem_append_left _
    (List.mem_append_left _ (edgeSamples_head_mem _ _ _ _)))

theorem corner_right (e : Extent) : (e.maxX, e.minY) ∈ boundarySamples e := by
  unfold boundarySamples
  exact List.mem_append_left _ (List.mem_append_left _
    (List.mem_append_right _ (edgeSamples_head_mem _ _ _ _)))

theorem corner_top (e : Extent) : (e.maxX, e.maxY) ∈ boundarySamples e := by
  unfold boundarySamples
  exact List.mem_append_left _
    (List.mem_append_right _ (edgeSamples_head_mem _ _ _ _))

theorem corner_left (e : Extent) : (e.minX, e.maxY) ∈ boundarySamples e := by
  unfold boundarySamples
  exact List.mem_append_right _ (edgeSamples_head_mem _ _ _ _)

/-- C8: outside the short-circuit the estimator samples the rectangle's
four edges at 9 evenly spaced points each (endpoints — hence all four
corners — included, 36 samples total), transforms all of them through a
request that carries traditional GIS axis order on both the parsed
source reference and the WGS84 destination, and returns the
componentwise min/max of the transformed coordinates with
`reprojected = true`; whereas a parse failure, a failed transform
construction, or any single point-transform failure returns the
original extent with `reprojected = false` and the corresponding reason
in the debug trace. -/
theorem estimator_sampling_and_fallbacks (eng : SrsEngine) (e : Extent)
    (crs : String) (hne : crs ≠ "") (hlex : isWgs84Lexical crs = false) :
    (boundarySamples e).length = 36 ∧
    (e.minX, e.minY) ∈ boundarySamples e ∧
    (e.maxX, e.minY) ∈ boundarySamples e ∧
    (e.maxX, e.maxY) ∈ boundarySamples e ∧
    (e.minX, e.maxY) ∈ boundarySamples e ∧
    (eng.parseErr crs ≠ 0 →
      transformExtentToWgs84 eng e crs =
        (e, false,
         ("Using source CRS: " ++ crs ++ "; ") ++
           "SetFromUserInput failed (error " ++
           toString (eng.parseErr crs) ++ "); ")) ∧
    (eng.parseErr crs = 0 → eng.isSameWgs84 crs = false →
      eng.createOk ⟨crs, .traditionalGisOrder, "WGS84",
        .traditionalGisOrder⟩ = false →
      transformExtentToWgs84 eng e crs =
        (e, false,
         ("Using source CRS: " ++ crs ++ "; ") ++
           "OGRCreateCoordinateTransformation failed; ")) ∧
    (∀ i : Nat, eng.parseErr crs = 0 → eng.isSameWgs84 crs = false →
      eng.createOk ⟨crs, .traditionalGisOrder, "WGS84",
        .traditionalGisOrder⟩ = true →
      transformAll (eng.transformPoint ⟨crs, .traditionalGisOrder, "WGS84",
        .traditionalGisOrder⟩) (boundarySamples e) 0 = .error i →
      transformExtentToWgs84 eng e crs =
        (e, false,
         ("Using source CRS: " ++ crs ++ "; ") ++
           "OGR transform failed at point " ++ toString i ++ "; ")) ∧
    (∀ tps : List (ℚ × ℚ), eng.parseErr crs = 0 →
      eng.isSameWgs84 crs = false →
      eng.createOk ⟨crs, .traditionalGisOrder, "WGS84",
        .traditionalGisOrder⟩ = true →
      transformAll (eng.transformPoint ⟨crs, .traditionalGisOrder, "WGS84",
        .traditionalGisOrder⟩) (boundarySamples e) 0 = .ok tps →
      tps.length = 36 ∧
      transformExtentToWgs84 eng e crs =
        (⟨minOf (tps.map Prod.fst), minOf (tps.map Prod.snd),
          maxOf (tps.map Prod.fst), maxOf (tps.map Prod.snd)⟩, true,
         ("Using source CRS: " ++ crs ++ "; ") ++
           "OGR reprojection successful; ") ∧
      (∀ p ∈ tps,
        minOf (tps.map Prod.fst) ≤ p.1 ∧ p.1 ≤ maxOf (tps.map Prod.fst) ∧
        minOf (tps.map Prod.snd) ≤ p.2 ∧ p.2 ≤ maxOf (tps.map Prod.snd)) ∧
      minOf (tps.map Prod.fst) ∈ tps.map Prod.fst ∧
      maxOf (tps.map Prod.fst) ∈ tps.map Prod.fst ∧
      minOf (tps.map Prod.snd) ∈ tps.map Prod.snd ∧
      maxOf (tps.map Prod.snd) ∈ tps.map Prod.snd) := by
  refine ⟨boundarySamples_length e, corner_bottom e, corner_right e,
    corner_top e, corner_left e, ?_, ?_, ?_, ?_⟩
  · intro hp
    simp [transformExtentToWgs84, hne, hlex, hp]
  · intro hp0 hsame hcreate
    simp [transformExtentToWgs84, hne, hlex, hp0, hsame, hcreate]
  · intro i hp0 hsame hcreate htr
    simp [transformExtentToWgs84, hne, hlex, hp0, hsame, hcreate, htr]
  · intro tps hp0 hsame hcreate htr
    have hlen : tps.length = 36 := by
      rw [transformAll_ok_length _ _ _ _ htr, boundarySamples_length]
    have htne : tps ≠ [] := by
      intro h0
      rw [h0] at hlen
      exact absurd hlen (by decide)
    have hxne : tps.map Prod.fst ≠ [] := by
      intro h0
      rw [List.map_eq_nil_iff] at h0
      exact htne h0
    have hyne : tps.map Prod.snd ≠ [] := by
      intro h0
      rw [List.map_eq_nil_iff] at h0
      exact htne h0
    refine ⟨hlen, ?_, ?_, minOf_mem hxne, maxOf_mem hxne,
      minOf_mem hyne, maxOf_mem hyne⟩
    · simp [transformExtentToWgs84, hne, hlex, hp0, hsame, hcreate, htr]
    · intro p hp
      exact ⟨minOf_le (List.mem_map_of_mem Prod.fst hp),
        le_maxOf (List.mem_map_of_mem Prod.fst hp),
        minOf_le (List.mem_map_of_mem Prod.snd hp),
        le_maxOf (List.mem_map_of_mem Prod.snd hp)⟩

/-- Witness for C8: with a pure-translation transform oracle the
estimator reprojects the unit square and reports `reprojected = true`. -/
theorem estimator_sampling_witness :
    ("EPSG:3857" ≠ "" ∧ isWgs84Lexical "EPSG:3857" = false) ∧
    (transformExtentToWgs84 srsShift ⟨0, 0, 1, 1⟩ "EPSG:3857").2.1 = true := by
  have h := estimator_sampling_and_fallbacks srsShift ⟨0, 0, 1, 1⟩ "EPSG:3857"
    (by decide) (by decide)
  have hok : transformAll
      (srsShift.transformPoint ⟨"EPSG:3857", .traditionalGisOrder, "WGS84",
        .traditionalGisOrder⟩) (boundarySamples ⟨0, 0, 1, 1⟩) 0 =
      .ok ((boundarySamples ⟨0, 0, 1, 1⟩).map (fun p => (p.1 + 1, p.2 + 2))) := by
    rfl
  have h9 := h.2.2.2.2.2.2.2.2 _ rfl rfl rfl hok
  refine ⟨⟨by decide, by decide⟩, ?_⟩
  rw [h9.2.1]

set_option maxHeartbeats 800000 in
/-- C9: the non-shapefile directive list is assembled in the stable
order: format selector, dimensionality from `keepZ`, the four optional
flags each present iff set, the simplify directive iff the tolerance is
positive, the driver-specific creation options (with the exact per-driver
contents), the CRS directives, the optional layer rename, the optional
geometry-family filter, the user WHERE clause as a separate additional
directive, and the optional field selection. -/
theorem nonshp_directive_order :
    (∀ (emb : Bool) (r : ConvertRequest),
      buildNonShpArgs emb r =
        ["-f", getDriverNameFromFormat r.outputFormat,
         "-dim", if r.keepZ then "XYZ" else "XY"] ++
        (if r.explodeCollections then ["-explodecollections"] else []) ++
        (if r.skipFailures then ["-skipfailures"] else []) ++
        (if r.makeValid then ["-makevalid"] else []) ++
        (if r.preserveFid then ["-preserve_fid"] else []) ++
        (if 0 < r.simplifyTolerance then
          ["-simplify", toString r.simplifyTolerance] else []) ++
        pushDriverLCO (getDriverNameFromFormat r.outputFormat)
          r.geojsonPrecision r.csvGeometryMode ++
        pushCrsArgs emb r.sourceCrs r.targetCrs ++
        (if r.layerName ≠ "" then ["-nln", r.layerName] else []) ++
        (if whereFromFilter r.geometryTypeFilter ≠ "" then
          ["-where", whereFromFilter r.geometryTypeFilter] else []) ++
        (if r.whereClause ≠ "" then ["-where", r.whereClause] else []) ++
        (if r.selectFields ≠ "" then ["-select", r.selectFields] else [])) ∧
    (∀ (p : Int) (m : String),
      pushDriverLCO "ESRI Shapefile" p m = ["-lco", "ENCODING=UTF-8"]) ∧
    (∀ (p : Int) (m : String),
      pushDriverLCO "GeoJSON" p m =
        ["-lco", "WRITE_BBOX=YES",
         "-lco", "COORDINATE_PRECISION=" ++ toString p]) ∧
    (∀ (p : Int) (m : String),
      pushDriverLCO "TopoJSON" p m =
        ["-lco", "WRITE_BBOX=YES",
         "-lco", "COORDINATE_PRECISION=" ++ toString p]) ∧
    (∀ (p : Int) (m : String),
      pushDriverLCO "GPKG" p m = ["-lco", "SPATIAL_INDEX=YES"]) ∧
    (∀ (p : Int) (m : String),
      pushDriverLCO "CSV" p m =
        ["-lco", if m = "XY" then "GEOMETRY=AS_XY" else "GEOMETRY=AS_WKT"]) := by
  refine ⟨?_, ?_, ?_, ?_, ?_, ?_⟩
  · intro emb r
    unfold buildNonShpArgs
    simp only [app_ite]
  · intro p m; rfl
  · intro p m; rfl
  · intro p m; rfl
  · intro p m; rfl
  · intro p m
    by_cases hm : m = "XY" <;> simp [pushDriverLCO, hm]

end GeoConverter
